import Mathlib

/-!
Shallow embedding of `grudge/array_context.py`: array-context class
selection, constructor warning behaviour, the distributed lazy compile
pipeline (`_DistributedLazilyCompilingFunctionCaller._dag_to_compiled_func`),
the compiled-function call (`_DistributedCompiledFunction.__call__`), and
the `clone` methods of the MPI-based contexts.

External libraries (meshmode, arraycontext, pytato, pyopencl, mpi4py) are
modelled by opaque handle types and by a record of uninterpreted functions
(`Externals`); the code of this repository is translated function by
function on top of them, with Python attribute mutation rendered as
explicit state passing.
-/

/-- Opaque handle for a `pyopencl.CommandQueue` (external object, only
ever forwarded by this module). -/
structure CommandQueue where
  id : Nat
deriving DecidableEq, Repr

/-- Opaque handle for a `pyopencl.tools.AllocatorInterface` (external
object, only ever forwarded by this module). -/
structure Allocator where
  id : Nat
deriving DecidableEq, Repr

/-- Opaque handle for an `mpi4py` communicator (external object, only
ever forwarded by this module). -/
structure MPIComm where
  id : Nat
deriving DecidableEq, Repr

/-- The user warnings this module can emit via `warnings.warn`. -/
inductive Warning where
  /-- "No memory allocator specified, please pass one." -/
  | allocatorMissing : Warning
  /-- "Your loopy and meshmode branches are mismatched." -/
  | branchMismatch : Warning
  /-- "No device-parallel actx available, execution will be slow." -/
  | noDeviceParallel : Warning
deriving DecidableEq, Repr

/-- Whether the two optional imports at the top of the module succeed:
`SingleGridWorkBalancingPytatoArrayContext` from meshmode, and
`get_idis_for_kernel` from loopy.  This is the "module state" the claims
quantify over. -/
structure ImportEnv where
  haveSingleGridClass : Bool
  haveLoopyBranch : Bool
deriving DecidableEq, Repr

/-- The module-level try/except block (lines 45-67): attempts the
meshmode import, then the loopy import; on a mismatch it warns and sets
`_HAVE_SINGLE_GRID_WORK_BALANCING = False`; it never raises.  Returns
the warnings issued at import time and the flag value. -/
def moduleInit (env : ImportEnv) : List Warning × Bool :=
  if env.haveSingleGridClass then
    if env.haveLoopyBranch then
      ([], true)
    else
      ([Warning.branchMismatch], false)
  else
    ([], false)

/-- The module-level flag `_HAVE_SINGLE_GRID_WORK_BALANCING`. -/
def HAVE_SINGLE_GRID_WORK_BALANCING (env : ImportEnv) : Bool :=
  (moduleInit env).2

/-- The array-context classes this module can hand out; the alternatives
of `get_reasonable_array_context_class` together with the class names
referenced there. -/
inductive ActxClass where
  | PyOpenCLArrayContext
  | PytatoPyOpenCLArrayContext
  | SingleGridWorkBalancingPytatoArrayContext
  | MPIPyOpenCLArrayContext
  | MPIBasePytatoPyOpenCLArrayContext
  | MPISingleGridWorkBalancingPytatoArrayContext
deriving DecidableEq, Repr

/-- A class is MPI-based when it mixes in `MPIBasedArrayContext`. -/
def ActxClass.isMPI : ActxClass → Bool
  | .MPIPyOpenCLArrayContext => true
  | .MPIBasePytatoPyOpenCLArrayContext => true
  | .MPISingleGridWorkBalancingPytatoArrayContext => true
  | _ => false

/-- `get_reasonable_array_context_class(lazy, distributed)` (lines
363-398), translated statement by statement.  The local variable
`actx_class` is threaded as an `Option ActxClass` (`none` = unassigned);
note that in the `lazy` branch the source's second `if` (labelled
"distributed+lazy:") is not guarded by `distributed` and therefore
reassigns `actx_class` unconditionally.  Returns the warnings issued and
the selected class (`Option`, since Python would raise `UnboundLocalError`
if no branch assigned it — in fact every path assigns). -/
def get_reasonable_array_context_class (env : ImportEnv)
    (lazy : Bool) (distributed : Bool) :
    List Warning × Option ActxClass :=
  if lazy then
    let warns : List Warning :=
      if ! HAVE_SINGLE_GRID_WORK_BALANCING env then
        [Warning.noDeviceParallel]
      else
        []
    let actx_class : Option ActxClass := none
    -- lazy, non-distributed
    let actx_class : Option ActxClass :=
      if ! distributed then
        if HAVE_SINGLE_GRID_WORK_BALANCING env then
          some .SingleGridWorkBalancingPytatoArrayContext
        else
          some .PytatoPyOpenCLArrayContext
      else
        actx_class
    -- distributed+lazy:
    let actx_class : Option ActxClass :=
      if HAVE_SINGLE_GRID_WORK_BALANCING env then
        some .MPISingleGridWorkBalancingPytatoArrayContext
      else
        some .MPIBasePytatoPyOpenCLArrayContext
    (warns, actx_class)
  else
    let actx_class : Option ActxClass :=
      if distributed then
        some .MPIPyOpenCLArrayContext
      else
        some .PyOpenCLArrayContext
    ([], actx_class)

/-- C1: the code, evaluated at the failing input `lazy=True,
distributed=False`: for both settings of the module flag the function
returns an MPI-based class (`MPIBasePytatoPyOpenCLArrayContext`, resp.
`MPISingleGridWorkBalancingPytatoArrayContext`), not the non-distributed
lazy class the claim (and the source's own "lazy, non-distributed" /
"distributed+lazy:" comments) call for: the second assignment lacks an
`if distributed:` guard and overwrites the first. -/
theorem C1_code_bug_eval :
    (get_reasonable_array_context_class ⟨false, false⟩ true false).2
      = some ActxClass.MPIBasePytatoPyOpenCLArrayContext
    ∧ (get_reasonable_array_context_class ⟨true, true⟩ true false).2
      = some ActxClass.MPISingleGridWorkBalancingPytatoArrayContext
    ∧ ∀ env : ImportEnv,
        Option.map ActxClass.isMPI
            (get_reasonable_array_context_class env true false).2
          = some true := by
  refine ⟨by decide, by decide, ?_⟩
  intro env
  cases env with
  | mk sg lb =>
    cases sg <;> cases lb <;> decide

/-- C2: in the eager case, for every module state,
`get_reasonable_array_context_class(lazy=False, distributed=True)`
returns `MPIPyOpenCLArrayContext` and
`get_reasonable_array_context_class(lazy=False, distributed=False)`
returns `PyOpenCLArrayContext`. -/
theorem C2_eager_selection (env : ImportEnv) :
    get_reasonable_array_context_class env false true
      = ([], some ActxClass.MPIPyOpenCLArrayContext)
    ∧ get_reasonable_array_context_class env false false
      = ([], some ActxClass.PyOpenCLArrayContext) := by
  constructor <;> rfl

/-- State of the external meshmode/arraycontext `PyOpenCLArrayContext`
base class: its constructor stores the queue, allocator,
`_wait_event_queue_length` and `_force_device_scalars` it is given. -/
structure PyOpenCLActxState where
  queue : CommandQueue
  allocator : Option Allocator
  wait_event_queue_length : Option Nat
  force_device_scalars : Bool
deriving DecidableEq, Repr

/-- Constructor of the external base class
`meshmode.array_context.PyOpenCLArrayContext` (external code: stores its
four arguments as the context's state). -/
def basePyOpenCLInit (queue : CommandQueue) (allocator : Option Allocator)
    (wait_event_queue_length : Option Nat) (force_device_scalars : Bool) :
    PyOpenCLActxState :=
  ⟨queue, allocator, wait_event_queue_length, force_device_scalars⟩

/-- `grudge.array_context.PyOpenCLArrayContext.__init__` (lines 91-103):
warn if `allocator is None`, then `super().__init__` with the same four
arguments.  Returns the warnings issued and the constructed state. -/
def PyOpenCLArrayContext.init (queue : CommandQueue)
    (allocator : Option Allocator) (wait_event_queue_length : Option Nat)
    (force_device_scalars : Bool) : List Warning × PyOpenCLActxState :=
  let warns : List Warning :=
    if allocator.isNone then [Warning.allocatorMissing] else []
  (warns,
    basePyOpenCLInit queue allocator wait_event_queue_length
      force_device_scalars)

/-- State of the external `PytatoPyOpenCLArrayContext` base class: its
constructor stores the queue and allocator it is given. -/
structure PytatoActxState where
  queue : CommandQueue
  allocator : Option Allocator
deriving DecidableEq, Repr

/-- Constructor of the external base class
`meshmode.array_context.PytatoPyOpenCLArrayContext` (external code:
stores its two arguments). -/
def basePytatoInit (queue : CommandQueue) (allocator : Option Allocator) :
    PytatoActxState :=
  ⟨queue, allocator⟩

/-- `grudge.array_context.PytatoPyOpenCLArrayContext.__init__` (lines
115-121): warn if `allocator is None`, then `super().__init__(queue,
allocator)`. -/
def PytatoPyOpenCLArrayContext.init (queue : CommandQueue)
    (allocator : Option Allocator) : List Warning × PytatoActxState :=
  let warns : List Warning :=
    if allocator.isNone then [Warning.allocatorMissing] else []
  (warns, basePytatoInit queue allocator)

/-- State of an MPI pytato array context
(`MPIPytatoArrayContextBase` mixed into one of the two pytato context
classes): the pytato base state plus `mpi_communicator` and
`mpi_base_tag` set by `__init__`, plus the dynamic type of the instance
(`MPIBasePytatoPyOpenCLArrayContext` or
`MPISingleGridWorkBalancingPytatoArrayContext`), which `clone` reuses
via `type(self)`. -/
structure MPIPytatoActxState where
  py_type : ActxClass
  queue : CommandQueue
  allocator : Option Allocator
  mpi_communicator : MPIComm
  mpi_base_tag : Nat
deriving DecidableEq, Repr

/-- `MPIPytatoArrayContextBase.__init__` (lines 245-257): warn if
`allocator is None`, call `super().__init__(queue, allocator)` (which by
the MRO is `grudge.PytatoPyOpenCLArrayContext.__init__` and warns again
on a missing allocator), then store `mpi_communicator` and
`mpi_base_tag`.  `ty` is the dynamic type of the instance under
construction. -/
def MPIPytatoArrayContextBase.init (ty : ActxClass)
    (mpi_communicator : MPIComm) (queue : CommandQueue)
    (mpi_base_tag : Nat) (allocator : Option Allocator) :
    List Warning × MPIPytatoActxState :=
  let warns1 : List Warning :=
    if allocator.isNone then [Warning.allocatorMissing] else []
  let (warns2, base) := PytatoPyOpenCLArrayContext.init queue allocator
  (warns1 ++ warns2,
    { py_type := ty
      queue := base.queue
      allocator := base.allocator
      mpi_communicator := mpi_communicator
      mpi_base_tag := mpi_base_tag })

/-- `MPIPytatoArrayContextBase.clone` (lines 264-269):
`type(self)(self.mpi_communicator, self.queue,
mpi_base_tag=self.mpi_base_tag, allocator=self.allocator)`. -/
def MPIPytatoArrayContextBase.clone (s : MPIPytatoActxState) :
    List Warning × MPIPytatoActxState :=
  MPIPytatoArrayContextBase.init s.py_type s.mpi_communicator s.queue
    s.mpi_base_tag s.allocator

/-- State of `MPIPyOpenCLArrayContext`: the eager pyopencl base state
plus the `mpi_communicator` stored by `__init__`. -/
structure MPIPyOpenCLActxState where
  queue : CommandQueue
  allocator : Option Allocator
  wait_event_queue_length : Option Nat
  force_device_scalars : Bool
  mpi_communicator : MPIComm
deriving DecidableEq, Repr

/-- `MPIPyOpenCLArrayContext.__init__` (lines 283-297):
`super().__init__(queue, allocator, wait_event_queue_length,
force_device_scalars)` (which is `grudge.PyOpenCLArrayContext.__init__`,
warning on a missing allocator), then store `mpi_communicator`. -/
def MPIPyOpenCLArrayContext.init (mpi_communicator : MPIComm)
    (queue : CommandQueue) (allocator : Option Allocator)
    (wait_event_queue_length : Option Nat) (force_device_scalars : Bool) :
    List Warning × MPIPyOpenCLActxState :=
  let (warns, base) :=
    PyOpenCLArrayContext.init queue allocator wait_event_queue_length
      force_device_scalars
  (warns,
    { queue := base.queue
      allocator := base.allocator
      wait_event_queue_length := base.wait_event_queue_length
      force_device_scalars := base.force_device_scalars
      mpi_communicator := mpi_communicator })

/-- `MPIPyOpenCLArrayContext.clone` (lines 299-305):
`type(self)(self.mpi_communicator, self.queue,
allocator=self.allocator,
wait_event_queue_length=self._wait_event_queue_length,
force_device_scalars=self._force_device_scalars)`. -/
def MPIPyOpenCLArrayContext.clone (s : MPIPyOpenCLActxState) :
    List Warning × MPIPyOpenCLActxState :=
  MPIPyOpenCLArrayContext.init s.mpi_communicator s.queue s.allocator
    s.wait_event_queue_length s.force_device_scalars

/-- C4: every public array context class in this module, constructed with
`allocator=None`, issues the missing-allocator user warning yet the
construction completes and returns a state; with a non-`None` allocator
no warning at all is issued. -/
theorem C4_allocator_warning (queue : CommandQueue)
    (wait_event_queue_length : Option Nat) (force_device_scalars : Bool)
    (mpi_communicator : MPIComm) (mpi_base_tag : Nat) (ty : ActxClass)
    (a : Allocator) :
    (Warning.allocatorMissing
        ∈ (PyOpenCLArrayContext.init queue none wait_event_queue_length
            force_device_scalars).1
      ∧ (PyOpenCLArrayContext.init queue (some a) wait_event_queue_length
            force_device_scalars).1 = [])
    ∧ (Warning.allocatorMissing
        ∈ (PytatoPyOpenCLArrayContext.init queue none).1
      ∧ (PytatoPyOpenCLArrayContext.init queue (some a)).1 = [])
    ∧ (Warning.allocatorMissing
        ∈ (MPIPyOpenCLArrayContext.init mpi_communicator queue none
            wait_event_queue_length force_device_scalars).1
      ∧ (MPIPyOpenCLArrayContext.init mpi_communicator queue (some a)
            wait_event_queue_length force_device_scalars).1 = [])
    ∧ (Warning.allocatorMissing
        ∈ (MPIPytatoArrayContextBase.init ty mpi_communicator queue
            mpi_base_tag none).1
      ∧ (MPIPytatoArrayContextBase.init ty mpi_communicator queue
            mpi_base_tag (some a)).1 = []) := by
  refine ⟨⟨?_, rfl⟩, ⟨?_, rfl⟩, ⟨?_, rfl⟩, ⟨?_, rfl⟩⟩ <;>
    simp [PyOpenCLArrayContext.init, PytatoPyOpenCLArrayContext.init,
      MPIPyOpenCLArrayContext.init, MPIPytatoArrayContextBase.init]

/-- C5 counterexample: with the mismatched-branch import state
(`SingleGridWorkBalancingPytatoArrayContext` importable but the loopy
branch missing), the mismatch warning is issued at module import time —
not at construction time of an array context: a concrete construction of
each context class under that very import state emits no
branch-mismatch warning. -/
theorem C5_counterexample :
    Warning.branchMismatch ∈ (moduleInit ⟨true, false⟩).1
    ∧ Warning.branchMismatch
        ∉ (PyOpenCLArrayContext.init ⟨0⟩ (some ⟨0⟩) none false).1
    ∧ Warning.branchMismatch ∉ (PyOpenCLArrayContext.init ⟨0⟩ none none false).1
    ∧ Warning.branchMismatch ∉ (PytatoPyOpenCLArrayContext.init ⟨0⟩ none).1
    ∧ Warning.branchMismatch
        ∉ (MPIPyOpenCLArrayContext.init ⟨0⟩ ⟨0⟩ none none false).1
    ∧ Warning.branchMismatch
        ∉ (MPIPytatoArrayContextBase.init
            ActxClass.MPIBasePytatoPyOpenCLArrayContext ⟨0⟩ ⟨0⟩ 0 none).1 := by
  decide

/-- C5 amended: a mismatched loopy/meshmode branch combination is
surfaced as a user warning at module import time, without raising (the
module-level try/except completes, clearing the feature flag); the
lazy factory paths additionally warn that no device-parallel context is
available; array-context constructors themselves never emit the
branch-mismatch warning. -/
theorem C5_branch_mismatch_at_import_time (queue : CommandQueue)
    (allocator : Option Allocator) (wait_event_queue_length : Option Nat)
    (force_device_scalars : Bool) (mpi_communicator : MPIComm)
    (mpi_base_tag : Nat) (ty : ActxClass) (distributed : Bool) :
    (moduleInit ⟨true, false⟩
        = ([Warning.branchMismatch], false))
    ∧ (∀ env : ImportEnv, (moduleInit env).1
          = if env.haveSingleGridClass && ! env.haveLoopyBranch then
              [Warning.branchMismatch]
            else
              [])
    ∧ (∀ env : ImportEnv,
          (get_reasonable_array_context_class env true distributed).1
            = if HAVE_SINGLE_GRID_WORK_BALANCING env then
                []
              else
                [Warning.noDeviceParallel])
    ∧ Warning.branchMismatch
        ∉ (PyOpenCLArrayContext.init queue allocator wait_event_queue_length
            force_device_scalars).1
    ∧ Warning.branchMismatch
        ∉ (PytatoPyOpenCLArrayContext.init queue allocator).1
    ∧ Warning.branchMismatch
        ∉ (MPIPyOpenCLArrayContext.init mpi_communicator queue allocator
            wait_event_queue_length force_device_scalars).1
    ∧ Warning.branchMismatch
        ∉ (MPIPytatoArrayContextBase.init ty mpi_communicator queue
            mpi_base_tag allocator).1 := by
  refine ⟨rfl, ?_, ?_, ?_, ?_, ?_, ?_⟩
  · intro env
    cases env with
    | mk sg lb => cases sg <;> cases lb <;> rfl
  · intro env
    cases h : HAVE_SINGLE_GRID_WORK_BALANCING env <;>
      simp [get_reasonable_array_context_class, h]
  all_goals
    cases allocator <;>
      simp [PyOpenCLArrayContext.init, PytatoPyOpenCLArrayContext.init,
        MPIPyOpenCLArrayContext.init, MPIPytatoArrayContextBase.init]

/-- C7: the shim constructors forward all their arguments unchanged to
the corresponding meshmode base-class constructor, and the resulting
state is exactly the base-class state — no attribute of their own is
added. -/
theorem C7_shims_add_no_state (queue : CommandQueue)
    (allocator : Option Allocator) (wait_event_queue_length : Option Nat)
    (force_device_scalars : Bool) :
    (PyOpenCLArrayContext.init queue allocator wait_event_queue_length
        force_device_scalars).2
      = basePyOpenCLInit queue allocator wait_event_queue_length
          force_device_scalars
    ∧ (PytatoPyOpenCLArrayContext.init queue allocator).2
        = basePytatoInit queue allocator := by
  constructor <;> rfl

/-- C9: `clone` on either MPI-based context rebuilds, via `type(self)`,
an instance whose every stored field (communicator, queue, allocator,
and `mpi_base_tag` for the pytato variant, resp.
`_wait_event_queue_length` and `_force_device_scalars` for the eager
variant) equals the original's — the cloned state is equal to the
original state, and the original (a value, in this pure embedding) is
untouched. -/
theorem C9_clone_preserves_fields (s : MPIPytatoActxState)
    (t : MPIPyOpenCLActxState) :
    (MPIPytatoArrayContextBase.clone s).2 = s
    ∧ (MPIPyOpenCLArrayContext.clone t).2 = t := by
  constructor
  · cases s
    rfl
  · cases t
    rfl

/-- Opaque handle for a `pytato` array expression (value of a
`DictOfNamedArrays` entry). -/
structure NamedArray where
  id : Nat
deriving DecidableEq, Repr

/-- A `pytato.DictOfNamedArrays`: an association of output names to
array expressions. -/
structure DictOfNamedArrays where
  entries : List (String × NamedArray)

/-- One part of a `pytato` distributed graph partition: its part id and
the names of the outputs it computes. -/
structure DistributedPart where
  pid : Nat
  output_names : List String

/-- A `pytato.distributed.DistributedGraphPartition`: its parts and the
mapping from variable names to results, which is what
`_dag_to_compiled_func` consumes from it. -/
structure DistributedPartition where
  parts : List DistributedPart
  var_name_to_result : String → NamedArray

/-- Opaque handle for a `pytato.target.BoundProgram`. -/
structure BoundProgram where
  id : Nat
deriving DecidableEq, Repr

/-- Opaque handle for an input id of a compiled function (argument
position, augmented with a container key). -/
structure InputId where
  id : Nat
deriving DecidableEq, Repr

/-- Opaque handle for the argument mapping `arg_id_to_arg` passed to a
compiled function. -/
structure ArgMap where
  id : Nat
deriving DecidableEq, Repr

/-- Opaque handle for the CL buffers produced by
`arraycontext...._args_to_cl_buffers`. -/
structure CLBuffers where
  id : Nat
deriving DecidableEq, Repr

/-- Opaque handle for a frozen device array, an entry of the output
dictionary of `execute_distributed_partition`. -/
structure DeviceBuf where
  id : Nat
deriving DecidableEq, Repr

/-- Opaque handle for a thawed device array (result of `actx.thaw`). -/
structure DeviceArray where
  id : Nat
deriving DecidableEq, Repr

/-- Opaque handle for a leaf of the output-template array container. -/
structure TemplateLeaf where
  id : Nat
deriving DecidableEq, Repr

/-- An `arraycontext` `ArrayContainer`, modelled by its leaves indexed
by their key paths: exactly the view `rec_keyed_map_array_container`
takes of a container (it visits every leaf with its key tuple and
rebuilds the same structure). -/
structure ArrayContainer (α : Type) where
  entries : List (List String × α)

/-- `arraycontext.container.traversal.rec_keyed_map_array_container`
(external code): rebuild the container, replacing each leaf `v` at key
path `keys` by `f keys v`. -/
def rec_keyed_map_array_container {α β : Type} (f : List String → α → β)
    (c : ArrayContainer α) : ArrayContainer β :=
  ⟨c.entries.map (fun kv => (kv.1, f kv.1 kv.2))⟩

/-- The Python-level failures `_dag_to_compiled_func` can raise: only
the `assert prev_mpi_base_tag == self.actx.mpi_base_tag`. -/
inductive PyError where
  | assertionFailed : PyError
deriving DecidableEq, Repr

/-- The external functions `_dag_to_compiled_func` and
`_DistributedCompiledFunction.__call__` delegate to (pytato,
arraycontext); uninterpreted, the theorems hold for every
instantiation. -/
structure Externals where
  deduplicate_data_wrappers : DictOfNamedArrays → DictOfNamedArrays
  find_distributed_partition : DictOfNamedArrays → DistributedPartition
  number_distributed_tags :
    MPIComm → DistributedPartition → Nat → DistributedPartition × Nat
  dag_to_transformed_loopy_prg :
    DictOfNamedArrays → BoundProgram × Unit × Unit
  args_to_cl_buffers :
    MPIPytatoActxState → (InputId → String) → ArgMap → CLBuffers
  execute_distributed_partition :
    DistributedPartition → List (Nat × BoundProgram) → CommandQueue →
      MPIComm → Option Allocator → CLBuffers → (String → DeviceBuf)
  thaw : MPIPytatoActxState → DeviceBuf → DeviceArray

/-- `_DistributedCompiledFunction` (lines 181-216), a frozen dataclass:
the captured array context, partition, per-part bound programs, the two
id-to-name mappings, and the output template. -/
structure DistributedCompiledFunction where
  actx : MPIPytatoActxState
  distributed_partition : DistributedPartition
  part_id_to_prg : List (Nat × BoundProgram)
  input_id_to_name_in_program : InputId → String
  output_id_to_name_in_program : List String → String
  output_template : ArrayContainer TemplateLeaf

/-- `_DistributedLazilyCompilingFunctionCaller._dag_to_compiled_func`
(lines 133-178), with `self.actx` threaded explicitly: deduplicate,
partition, renumber the symbolic communication tags starting at the
context's current `mpi_base_tag`, check the assertion, store the new
base tag into the context, compile each part, and build the compiled
function.  Returns the updated context state alongside the compiled
function, or the assertion failure. -/
def dag_to_compiled_func (ext : Externals) (actx : MPIPytatoActxState)
    (dict_of_named_arrays : DictOfNamedArrays)
    (input_id_to_name_in_program : InputId → String)
    (output_id_to_name_in_program : List String → String)
    (output_template : ArrayContainer TemplateLeaf) :
    Except PyError (MPIPytatoActxState × DistributedCompiledFunction) :=
  let dict_of_named_arrays := ext.deduplicate_data_wrappers dict_of_named_arrays
  let distributed_partition :=
    ext.find_distributed_partition dict_of_named_arrays
  let prev_mpi_base_tag := actx.mpi_base_tag
  let numbered := ext.number_distributed_tags actx.mpi_communicator
    distributed_partition prev_mpi_base_tag
  let distributed_partition := numbered.1
  let new_mpi_base_tag := numbered.2
  if prev_mpi_base_tag = actx.mpi_base_tag then
    let actx := { actx with mpi_base_tag := new_mpi_base_tag }
    let part_id_to_prg := distributed_partition.parts.map (fun part =>
      (part.pid,
        (ext.dag_to_transformed_loopy_prg
          ⟨part.output_names.map (fun var_name =>
            (var_name, distributed_partition.var_name_to_result var_name))⟩).1))
    Except.ok (actx,
      { actx := actx
        distributed_partition := distributed_partition
        part_id_to_prg := part_id_to_prg
        input_id_to_name_in_program := input_id_to_name_in_program
        output_id_to_name_in_program := output_id_to_name_in_program
        output_template := output_template })
  else
    Except.error PyError.assertionFailed

/-- `_DistributedCompiledFunction.__call__` (lines 218-241): convert the
arguments to CL buffers, run `execute_distributed_partition` with the
captured context's queue, communicator and allocator, then thaw the
named outputs into the shape of the output template.  The dataclass is
frozen; the call reads `self` and returns only the container. -/
def DistributedCompiledFunction.call (ext : Externals)
    (cf : DistributedCompiledFunction) (arg_id_to_arg : ArgMap) :
    ArrayContainer DeviceArray :=
  let input_args_for_prg := ext.args_to_cl_buffers cf.actx
    cf.input_id_to_name_in_program arg_id_to_arg
  let out_dict := ext.execute_distributed_partition cf.distributed_partition
    cf.part_id_to_prg cf.actx.queue cf.actx.mpi_communicator
    cf.actx.allocator input_args_for_prg
  rec_keyed_map_array_container
    (fun keys _ =>
      ext.thaw cf.actx (out_dict (cf.output_id_to_name_in_program keys)))
    cf.output_template

/-- The renumbering step of `_dag_to_compiled_func` in isolation:
`number_distributed_tags` applied to the context's communicator, the
partition of the deduplicated graph, and the context's current
`mpi_base_tag`. -/
def renumbered (ext : Externals) (actx : MPIPytatoActxState)
    (dag : DictOfNamedArrays) : DistributedPartition × Nat :=
  ext.number_distributed_tags actx.mpi_communicator
    (ext.find_distributed_partition (ext.deduplicate_data_wrappers dag))
    actx.mpi_base_tag

/-- The compiled function `_dag_to_compiled_func` produces, written
directly in terms of the renumbered partition. -/
def compiledFuncOf (ext : Externals) (actx : MPIPytatoActxState)
    (dag : DictOfNamedArrays) (i : InputId → String)
    (o : List String → String) (t : ArrayContainer TemplateLeaf) :
    DistributedCompiledFunction :=
  { actx := { actx with mpi_base_tag := (renumbered ext actx dag).2 }
    distributed_partition := (renumbered ext actx dag).1
    part_id_to_prg := (renumbered ext actx dag).1.parts.map (fun part =>
      (part.pid,
        (ext.dag_to_transformed_loopy_prg
          ⟨part.output_names.map (fun var_name =>
            (var_name,
              (renumbered ext actx dag).1.var_name_to_result var_name))⟩).1))
    input_id_to_name_in_program := i
    output_id_to_name_in_program := o
    output_template := t }

/-- Unfolding lemma: `_dag_to_compiled_func` always takes the
non-assertion path and returns the tag-updated context together with
`compiledFuncOf`. -/
theorem dag_to_compiled_func_eq (ext : Externals) (actx : MPIPytatoActxState)
    (dag : DictOfNamedArrays) (i : InputId → String)
    (o : List String → String) (t : ArrayContainer TemplateLeaf) :
    dag_to_compiled_func ext actx dag i o t
      = Except.ok
          ({ actx with mpi_base_tag := (renumbered ext actx dag).2 },
            compiledFuncOf ext actx dag i o t) := by
  unfold dag_to_compiled_func
  rw [if_pos rfl]
  rfl

/-- C3: `_dag_to_compiled_func` renumbers the partition's symbolic tags
with `number_distributed_tags` at `base_tag = self.actx.mpi_base_tag`,
stores the renumbered partition in the compiled function, and updates
the context's `mpi_base_tag` to the returned new base tag; a subsequent
compilation on the updated context therefore renumbers starting at
exactly the tag the previous one returned. -/
theorem C3_tag_renumbering (ext : Externals) (actx : MPIPytatoActxState)
    (dag : DictOfNamedArrays) (i : InputId → String)
    (o : List String → String) (t : ArrayContainer TemplateLeaf) :
    ∃ actx1 cf,
      dag_to_compiled_func ext actx dag i o t = Except.ok (actx1, cf)
      ∧ actx1.mpi_base_tag
          = (ext.number_distributed_tags actx.mpi_communicator
              (ext.find_distributed_partition
                (ext.deduplicate_data_wrappers dag))
              actx.mpi_base_tag).2
      ∧ cf.distributed_partition
          = (ext.number_distributed_tags actx.mpi_communicator
              (ext.find_distributed_partition
                (ext.deduplicate_data_wrappers dag))
              actx.mpi_base_tag).1
      ∧ cf.actx = actx1
      ∧ ∀ (dag2 : DictOfNamedArrays) (i2 : InputId → String)
          (o2 : List String → String) (t2 : ArrayContainer TemplateLeaf),
          ∃ actx2 cf2,
            dag_to_compiled_func ext actx1 dag2 i2 o2 t2
              = Except.ok (actx2, cf2)
            ∧ actx2.mpi_base_tag
                = (ext.number_distributed_tags actx.mpi_communicator
                    (ext.find_distributed_partition
                      (ext.deduplicate_data_wrappers dag2))
                    (ext.number_distributed_tags actx.mpi_communicator
                      (ext.find_distributed_partition
                        (ext.deduplicate_data_wrappers dag))
                      actx.mpi_base_tag).2).2 := by
  refine ⟨_, _, dag_to_compiled_func_eq ext actx dag i o t, rfl, rfl, rfl, ?_⟩
  intro dag2 i2 o2 t2
  exact ⟨_, _, dag_to_compiled_func_eq ext _ dag2 i2 o2 t2, rfl⟩

/-- C8: the assertion `prev_mpi_base_tag == self.actx.mpi_base_tag` in
`_dag_to_compiled_func` always holds — between reading
`prev_mpi_base_tag` and the assertion nothing touches the context's
`mpi_base_tag`, so in this (single-threaded, explicitly state-passed)
semantics the error branch is unreachable: for every context, graph and
externals the function returns `ok`, never the assertion failure. -/
theorem C8_assert_unreachable (ext : Externals) (actx : MPIPytatoActxState)
    (dag : DictOfNamedArrays) (i : InputId → String)
    (o : List String → String) (t : ArrayContainer TemplateLeaf) :
    ∃ r, dag_to_compiled_func ext actx dag i o t = Except.ok r := by
  exact ⟨_, dag_to_compiled_func_eq ext actx dag i o t⟩

/-- C6: the communicator, queue and allocator given to the MPI context
constructors are stored unchanged, and when a function compiled on such
a context is called, those very values reach
`execute_distributed_partition` (the context's other field updates — the
`mpi_base_tag` bump during compilation — do not touch them); the module
itself never constructs a communicator or queue, it only forwards the
`comm`/`queue` handles it was given. -/
theorem C6_objects_forwarded_unchanged (ty : ActxClass) (comm : MPIComm)
    (queue : CommandQueue) (alloc : Option Allocator) (tag : Nat)
    (weql : Option Nat) (fds : Bool) (ext : Externals)
    (dag : DictOfNamedArrays) (i : InputId → String)
    (o : List String → String) (t : ArrayContainer TemplateLeaf)
    (args : ArgMap) :
    ((MPIPytatoArrayContextBase.init ty comm queue tag alloc).2.mpi_communicator
        = comm
      ∧ (MPIPytatoArrayContextBase.init ty comm queue tag alloc).2.queue = queue
      ∧ (MPIPytatoArrayContextBase.init ty comm queue tag alloc).2.allocator
          = alloc)
    ∧ ((MPIPyOpenCLArrayContext.init comm queue alloc weql fds).2.mpi_communicator
          = comm
      ∧ (MPIPyOpenCLArrayContext.init comm queue alloc weql fds).2.queue = queue
      ∧ (MPIPyOpenCLArrayContext.init comm queue alloc weql fds).2.allocator
          = alloc)
    ∧ ∃ actx1 cf,
        dag_to_compiled_func ext
            (MPIPytatoArrayContextBase.init ty comm queue tag alloc).2
            dag i o t
          = Except.ok (actx1, cf)
        ∧ cf.actx.mpi_communicator = comm
        ∧ cf.actx.queue = queue
        ∧ cf.actx.allocator = alloc
        ∧ cf.call ext args
            = rec_keyed_map_array_container
                (fun keys _ =>
                  ext.thaw cf.actx
                    ((ext.execute_distributed_partition
                        cf.distributed_partition cf.part_id_to_prg
                        queue comm alloc
                        (ext.args_to_cl_buffers cf.actx
                          cf.input_id_to_name_in_program args))
                      (cf.output_id_to_name_in_program keys)))
                cf.output_template := by
  refine ⟨⟨rfl, rfl, rfl⟩, ⟨rfl, rfl, rfl⟩,
    _, _, dag_to_compiled_func_eq ext _ dag i o t, rfl, rfl, rfl, rfl⟩

/-- C10: calling a compiled distributed function yields a container with
exactly the key paths of `output_template`, each leaf being the thawed
entry of the `execute_distributed_partition` result dictionary under the
name `output_id_to_name_in_program` assigns to that key path; the
compiled function itself is a frozen value the call only reads. -/
theorem C10_call_output_structure (ext : Externals)
    (cf : DistributedCompiledFunction) (args : ArgMap) :
    (cf.call ext args).entries
      = cf.output_template.entries.map (fun kv =>
          (kv.1,
            ext.thaw cf.actx
              ((ext.execute_distributed_partition cf.distributed_partition
                  cf.part_id_to_prg cf.actx.queue cf.actx.mpi_communicator
                  cf.actx.allocator
                  (ext.args_to_cl_buffers cf.actx
                    cf.input_id_to_name_in_program args))
                (cf.output_id_to_name_in_program kv.1))))
    ∧ (cf.call ext args).entries.map Prod.fst
        = cf.output_template.entries.map Prod.fst := by
  constructor
  · rfl
  · simp [DistributedCompiledFunction.call, rec_keyed_map_array_container]
